import Mathlib

/-!
Shallow embedding of the rule-based fallback classifiers of
src/hooks/useTriage.ts (functions calculateFallbackTriage and
calculateFallbackVerification) together with the data model of
src/types/index.ts, and proofs of the specified properties.

Numeric vitals and ages are modelled as integers; the JavaScript
truthiness guards (`x && p x`) are translated explicitly: a numeric
field is truthy iff present and nonzero, a string is truthy iff
present and nonempty.
-/

namespace Medtech

/-- Gender enumeration of TriageInput (src/types/index.ts). -/
inductive Gender
  | male
  | female
  | other
deriving DecidableEq, Repr

/-- Category labels of TriageResult (src/types/index.ts). -/
inductive Category
  | Emergency
  | High
  | Medium
  | Low
  | Normal
deriving DecidableEq, Repr

/-- Provenance tag of a result (src/types/index.ts). -/
inductive Source
  | ml
  | ruleBased
  | ai
deriving DecidableEq, Repr

/-- Optional vitals of TriageInput (src/types/index.ts). -/
structure Vitals where
  bloodPressure : Option String := none
  heartRate : Option Int := none
  temperature : Option Int := none
  oxygenSaturation : Option Int := none
deriving DecidableEq, Repr

/-- TriageInput (src/types/index.ts). -/
structure TriageInput where
  patientId : Option String := none
  patientName : String := ""
  age : Int := 0
  gender : Gender := Gender.other
  symptoms : String := ""
  duration : String := ""
  vitals : Option Vitals := none
deriving DecidableEq, Repr

/-- The part of TriageResult produced by calculateFallbackTriage
(Omit of id, createdAt, patientId). -/
structure TriageOutcome where
  patientName : String
  urgencyLevel : Int
  category : Category
  explanation : String
  confidence : ℚ
  source : Source
  symptoms : String
  recommendedAction : String
deriving DecidableEq, Repr

/-- JavaScript String.prototype.toLowerCase restricted to ASCII,
as used on the symptom text. -/
def lowerStr (s : String) : String :=
  String.mk (s.data.map Char.toLower)

/-- JavaScript String.prototype.includes: substring containment. -/
def strIncludes (s pat : String) : Bool :=
  decide (pat.data <:+: s.data)

/-- Emergency keyword list (useTriage.ts line 15). -/
def emergencyKeywords : List String :=
  ["chest pain", "difficulty breathing", "unconscious", "severe bleeding",
   "stroke", "heart attack", "seizure", "choking"]

/-- High-urgency keyword list (useTriage.ts line 16). -/
def highKeywords : List String :=
  ["high fever", "severe pain", "vomiting blood", "head injury",
   "fracture", "allergic reaction"]

/-- Medium-urgency keyword list (useTriage.ts line 17). -/
def mediumKeywords : List String :=
  ["moderate pain", "persistent fever", "infection", "dizziness", "weakness"]

/-- Low-urgency keyword list (useTriage.ts line 18). -/
def lowKeywords : List String :=
  ["mild pain", "cold", "cough", "headache", "fatigue"]

/-- All four keyword tiers in scan order. -/
def allTierKeywords : List String :=
  emergencyKeywords ++ highKeywords ++ mediumKeywords ++ lowKeywords

/-- Result of the keyword-tier scan: level, category, explanation and
recommended action chosen by the first matching tier. -/
structure Tier where
  urgencyLevel : Int
  category : Category
  explanation : String
  recommendedAction : String
deriving DecidableEq, Repr

/-- The first-match-wins keyword tier scan of calculateFallbackTriage
(useTriage.ts lines 20-45), applied to the lower-cased symptom text. -/
def tierOf (symptoms : String) : Tier :=
  if emergencyKeywords.any (fun kw => strIncludes symptoms kw) then
    ⟨1, Category.Emergency,
     "Patient symptoms indicate a potentially life-threatening condition requiring immediate attention.",
     "Immediate medical intervention required. Alert emergency team."⟩
  else if highKeywords.any (fun kw => strIncludes symptoms kw) then
    ⟨2, Category.High,
     "Patient symptoms suggest a serious condition requiring urgent care.",
     "Prioritize for urgent care within 30 minutes."⟩
  else if mediumKeywords.any (fun kw => strIncludes symptoms kw) then
    ⟨3, Category.Medium,
     "Patient symptoms indicate a condition requiring timely evaluation.",
     "Schedule for evaluation within 1-2 hours."⟩
  else if lowKeywords.any (fun kw => strIncludes symptoms kw) then
    ⟨4, Category.Low,
     "Patient symptoms suggest a minor condition.",
     "Can wait for routine care. Monitor for changes."⟩
  else
    ⟨5, Category.Normal,
     "Standard evaluation recommended. No urgent symptoms detected.",
     "Schedule routine appointment."⟩

/-- Mutable state of the adjustment phase of calculateFallbackTriage:
the urgencyLevel, category and explanation variables. -/
structure AdjState where
  urgencyLevel : Int
  category : Category
  explanation : String
deriving DecidableEq, Repr

/-- Adjustment state right after tier selection. -/
def tierState (symptoms : String) : AdjState :=
  ⟨(tierOf symptoms).urgencyLevel, (tierOf symptoms).category,
   (tierOf symptoms).explanation⟩

/-- Age adjustment (useTriage.ts lines 48-51): if age < 5 or age > 70,
decrement the level when it is above 1, and always append the age
explanation fragment. The category is not touched. -/
def ageAdjust (age : Int) (st : AdjState) : AdjState :=
  if age < 5 ∨ age > 70 then
    { st with
      urgencyLevel := if st.urgencyLevel > 1 then st.urgencyLevel - 1 else st.urgencyLevel
      explanation := st.explanation ++ " Age factor increases priority." }
  else st

/-- Temperature adjustment (useTriage.ts lines 55-58). The JavaScript
guard `temperature && temperature > 39` requires a present, nonzero
temperature above 39. The category is not touched. -/
def tempAdjust (temperature : Option Int) (st : AdjState) : AdjState :=
  match temperature with
  | some t =>
    if t ≠ 0 ∧ t > 39 then
      { st with
        urgencyLevel := if st.urgencyLevel > 2 then st.urgencyLevel - 1 else st.urgencyLevel
        explanation := st.explanation ++ " High temperature noted." }
    else st
  | none => st

/-- Oxygen-saturation adjustment (useTriage.ts lines 59-63). The
JavaScript guard `oxygenSaturation && oxygenSaturation < 94` requires a
present, nonzero saturation below 94; it sets level 1 and category
Emergency directly. -/
def oxygenAdjust (oxygenSaturation : Option Int) (st : AdjState) : AdjState :=
  match oxygenSaturation with
  | some o =>
    if o ≠ 0 ∧ o < 94 then
      { urgencyLevel := 1
        category := Category.Emergency
        explanation := st.explanation ++ " Low oxygen saturation - critical concern." }
    else st
  | none => st

/-- Heart-rate adjustment (useTriage.ts lines 64-67). The JavaScript
guard `heartRate && (heartRate > 120 || heartRate < 50)` requires a
present, nonzero rate; the level is set directly to 2 when above 2.
The category is not touched. -/
def heartRateAdjust (heartRate : Option Int) (st : AdjState) : AdjState :=
  match heartRate with
  | some h =>
    if h ≠ 0 ∧ (h > 120 ∨ h < 50) then
      { st with
        urgencyLevel := if st.urgencyLevel > 2 then 2 else st.urgencyLevel
        explanation := st.explanation ++ " Abnormal heart rate detected." }
    else st
  | none => st

/-- Vitals adjustment block (useTriage.ts lines 53-68): temperature,
then oxygen saturation, then heart rate, applied only when vitals are
present. -/
def vitalsAdjust (vitals : Option Vitals) (st : AdjState) : AdjState :=
  match vitals with
  | some v =>
    heartRateAdjust v.heartRate (oxygenAdjust v.oxygenSaturation (tempAdjust v.temperature st))
  | none => st

/-- Full adjustment pipeline of calculateFallbackTriage: tier scan on
the lower-cased symptoms, then age adjustment, then vitals adjustment. -/
def triageAdjusted (input : TriageInput) : AdjState :=
  vitalsAdjust input.vitals (ageAdjust input.age (tierState (lowerStr input.symptoms)))

/-- calculateFallbackTriage (useTriage.ts lines 7-80). -/
def calculateFallbackTriage (input : TriageInput) : TriageOutcome :=
  let st := triageAdjusted input
  { patientName := input.patientName
    urgencyLevel := st.urgencyLevel
    category := st.category
    explanation := st.explanation
    confidence := (7 : ℚ) / 10
    source := Source.ruleBased
    symptoms := input.symptoms
    recommendedAction := (tierOf (lowerStr input.symptoms)).recommendedAction }

/-- DrugVerificationInput (src/types/index.ts); the opaque image file
is irrelevant to the fallback classifier and omitted. -/
structure DrugVerificationInput where
  qrCode : Option String := none
  drugName : Option String := none
  batchNumber : Option String := none
  manufacturer : Option String := none
deriving DecidableEq, Repr

/-- Verification status enumeration of DrugVerificationResult. -/
inductive VerificationStatus
  | authentic
  | suspicious
  | counterfeit
  | unknown
deriving DecidableEq, Repr

/-- The part of DrugVerificationResult produced by
calculateFallbackVerification (Omit of id, verifiedAt); the details
object holds only the manufacturer. -/
structure VerificationOutcome where
  drugName : String
  batchNumber : Option String
  isAuthentic : Bool
  confidence : ℚ
  verificationStatus : VerificationStatus
  warningMessage : Option String
  source : Source
  manufacturer : String
deriving DecidableEq, Repr

/-- JavaScript `v || dflt` on an optional string: the default is taken
when the string is absent or empty (falsy). -/
def jsStrOr (v : Option String) (dflt : String) : String :=
  match v with
  | some s => if s = "" then dflt else s
  | none => dflt

/-- The anchored batch-number pattern of useTriage.ts line 163:
two ASCII uppercase letters followed by six or more digits, matching
the whole string. -/
def batchPatternMatch (s : String) : Bool :=
  match s.data with
  | a :: b :: rest =>
    a.isUpper && b.isUpper && decide (6 ≤ rest.length) && rest.all Char.isDigit
  | _ => false

/-- calculateFallbackVerification (useTriage.ts lines 142-186). The
initial assignments (authentic, 0.6) are overwritten on every branch of
the decision list; the JavaScript test `!batchNumber` is true for an
absent or empty batch number. -/
def calculateFallbackVerification (input : DrugVerificationInput) : VerificationOutcome :=
  let base : VerificationOutcome :=
    { drugName := jsStrOr input.drugName "Unknown Drug"
      batchNumber := input.batchNumber
      isAuthentic := true
      confidence := (6 : ℚ) / 10
      verificationStatus := VerificationStatus.authentic
      warningMessage := none
      source := Source.ruleBased
      manufacturer := jsStrOr input.manufacturer "Unknown" }
  match input.batchNumber with
  | none =>
    { base with
      isAuthentic := false
      confidence := (3 : ℚ) / 10
      verificationStatus := VerificationStatus.unknown
      warningMessage := some "No batch number provided. Unable to fully verify authenticity." }
  | some s =>
    if s = "" then
      { base with
        isAuthentic := false
        confidence := (3 : ℚ) / 10
        verificationStatus := VerificationStatus.unknown
        warningMessage := some "No batch number provided. Unable to fully verify authenticity." }
    else if s.length < 6 then
      { base with
        isAuthentic := false
        confidence := (1 : ℚ) / 2
        verificationStatus := VerificationStatus.suspicious
        warningMessage := some "Batch number format is unusual. Manual verification recommended." }
    else if batchPatternMatch s then
      { base with
        isAuthentic := true
        confidence := (3 : ℚ) / 4
        verificationStatus := VerificationStatus.authentic
        warningMessage := none }
    else
      { base with
        isAuthentic := false
        confidence := (2 : ℚ) / 5
        verificationStatus := VerificationStatus.suspicious
        warningMessage := some "Batch number does not match expected format." }

/-- The fixed urgency-level-to-category mapping of URGENCY_CONFIG
(src/types/index.ts lines 149-155): 1 Emergency, 2 High, 3 Medium,
4 Low, 5 Normal. -/
def categoryOfLevel : Int → Category
  | 1 => Category.Emergency
  | 2 => Category.High
  | 3 => Category.Medium
  | 4 => Category.Low
  | _ => Category.Normal

/-! Projection lemmas tying the result record to the adjustment pipeline. -/

lemma calculateFallbackTriage_urgencyLevel (input : TriageInput) :
    (calculateFallbackTriage input).urgencyLevel = (triageAdjusted input).urgencyLevel := rfl

lemma calculateFallbackTriage_category (input : TriageInput) :
    (calculateFallbackTriage input).category = (triageAdjusted input).category := rfl

lemma calculateFallbackTriage_explanation (input : TriageInput) :
    (calculateFallbackTriage input).explanation = (triageAdjusted input).explanation := rfl

/-! Preservation lemmas for the adjustment steps. -/

lemma ageAdjust_category (a : Int) (st : AdjState) :
    (ageAdjust a st).category = st.category := by
  unfold ageAdjust; split <;> rfl

lemma ageAdjust_level_one (a : Int) (st : AdjState) (h : st.urgencyLevel = 1) :
    (ageAdjust a st).urgencyLevel = 1 := by
  unfold ageAdjust
  split
  · simp [h]
  · exact h

lemma tempAdjust_category (t : Option Int) (st : AdjState) :
    (tempAdjust t st).category = st.category := by
  cases t with
  | none => rfl
  | some x =>
    simp only [tempAdjust]
    split <;> rfl

lemma tempAdjust_level_one (t : Option Int) (st : AdjState) (h : st.urgencyLevel = 1) :
    (tempAdjust t st).urgencyLevel = 1 := by
  cases t with
  | none => exact h
  | some x =>
    simp only [tempAdjust]
    split
    · simp [h]
    · exact h

lemma heartRateAdjust_category (hr : Option Int) (st : AdjState) :
    (heartRateAdjust hr st).category = st.category := by
  cases hr with
  | none => rfl
  | some x =>
    simp only [heartRateAdjust]
    split <;> rfl

lemma heartRateAdjust_level_one (hr : Option Int) (st : AdjState) (h : st.urgencyLevel = 1) :
    (heartRateAdjust hr st).urgencyLevel = 1 := by
  cases hr with
  | none => exact h
  | some x =>
    simp only [heartRateAdjust]
    split
    · simp [h]
    · exact h

lemma oxygenAdjust_lock (o : Option Int) (st : AdjState)
    (h1 : st.urgencyLevel = 1) (h2 : st.category = Category.Emergency) :
    (oxygenAdjust o st).urgencyLevel = 1 ∧ (oxygenAdjust o st).category = Category.Emergency := by
  cases o with
  | none => exact ⟨h1, h2⟩
  | some x =>
    simp only [oxygenAdjust]
    split
    · exact ⟨rfl, rfl⟩
    · exact ⟨h1, h2⟩

lemma oxygenAdjust_fires (o : Int) (st : AdjState) (h0 : o ≠ 0) (h94 : o < 94) :
    (oxygenAdjust (some o) st).urgencyLevel = 1 ∧
    (oxygenAdjust (some o) st).category = Category.Emergency := by
  simp only [oxygenAdjust]
  rw [if_pos ⟨h0, h94⟩]
  exact ⟨rfl, rfl⟩

lemma vitalsAdjust_lock (v : Option Vitals) (st : AdjState)
    (h1 : st.urgencyLevel = 1) (h2 : st.category = Category.Emergency) :
    (vitalsAdjust v st).urgencyLevel = 1 ∧ (vitalsAdjust v st).category = Category.Emergency := by
  cases v with
  | none => exact ⟨h1, h2⟩
  | some vv =>
    simp only [vitalsAdjust]
    have ht1 := tempAdjust_level_one vv.temperature st h1
    have ht2 := (tempAdjust_category vv.temperature st).trans h2
    have ho := oxygenAdjust_lock vv.oxygenSaturation _ ht1 ht2
    exact ⟨heartRateAdjust_level_one vv.heartRate _ ho.1,
           (heartRateAdjust_category vv.heartRate _).trans ho.2⟩

/-! Claim theorems. -/

/-- Concrete input for claim C1: symptoms "cold" (Low tier, level 4),
age 4 (age adjustment fires). -/
def c1Input : TriageInput := { patientName := "p", age := 4, symptoms := "cold" }

/-- C1: evaluation of the code at the failing input. The age adjustment
lowers the urgency level from 4 to 3 but leaves the category at Low,
while the fixed mapping assigns Medium to level 3 — the returned
category does not equal the mapping of the returned level. -/
theorem c1_level_category_mismatch :
    (calculateFallbackTriage c1Input).urgencyLevel = 3 ∧
    (calculateFallbackTriage c1Input).category = Category.Low ∧
    categoryOfLevel (calculateFallbackTriage c1Input).urgencyLevel = Category.Medium ∧
    (calculateFallbackTriage c1Input).category ≠
      categoryOfLevel (calculateFallbackTriage c1Input).urgencyLevel := by
  decide

/-- C2 counterexample: with vitals present and oxygenSaturation 0
(which is strictly less than 94), the truthiness guard skips the
oxygen branch and the result stays at level 5 / Normal instead of the
claimed level 1 / Emergency. -/
def c2Cx : TriageInput :=
  { patientName := "p", age := 30, symptoms := "",
    vitals := some { oxygenSaturation := some 0 } }

/-- C2 counterexample theorem: oxygenSaturation 0 is strictly below 94
yet the classifier does not return urgency level 1. -/
theorem c2_counterexample :
    ((0 : Int) < 94) ∧
    (calculateFallbackTriage c2Cx).urgencyLevel ≠ 1 ∧
    (calculateFallbackTriage c2Cx).urgencyLevel = 5 ∧
    (calculateFallbackTriage c2Cx).category = Category.Normal := by
  decide

/-- C2 amended: for every TriageInput whose vitals include a nonzero
oxygenSaturation strictly below 94, the classifier returns urgency
level 1 and category Emergency, regardless of symptoms, age and other
vitals. -/
theorem c2_low_oxygen_forces_emergency (input : TriageInput) (v : Vitals) (o : Int)
    (hv : input.vitals = some v) (ho : v.oxygenSaturation = some o)
    (h0 : o ≠ 0) (h94 : o < 94) :
    (calculateFallbackTriage input).urgencyLevel = 1 ∧
    (calculateFallbackTriage input).category = Category.Emergency := by
  rw [calculateFallbackTriage_urgencyLevel, calculateFallbackTriage_category]
  unfold triageAdjusted
  rw [hv]
  simp only [vitalsAdjust]
  rw [ho]
  have h1 := oxygenAdjust_fires o
    (tempAdjust v.temperature (ageAdjust input.age (tierState (lowerStr input.symptoms)))) h0 h94
  exact ⟨heartRateAdjust_level_one v.heartRate _ h1.1,
         (heartRateAdjust_category v.heartRate _).trans h1.2⟩

/-- C2 witness input: the specification's own example. -/
def c2Wit : TriageInput :=
  { patientName := "p", age := 30, symptoms := "mild pain",
    vitals := some { oxygenSaturation := some 90 } }

/-- C2 witness: oxygenSaturation 90 on a Low-tier symptom yields level
1 / Emergency. -/
theorem c2_witness :
    (calculateFallbackTriage c2Wit).urgencyLevel = 1 ∧
    (calculateFallbackTriage c2Wit).category = Category.Emergency :=
  c2_low_oxygen_forces_emergency c2Wit { oxygenSaturation := some 90 } 90
    rfl rfl (by decide) (by decide)

/-- C4 counterexample input: Medium tier (level 3), vitals present with
heartRate 0, which is strictly below 50. -/
def c4Cx : TriageInput :=
  { patientName := "p", age := 30, symptoms := "infection",
    vitals := some { heartRate := some 0 } }

/-- C4 counterexample theorem: heartRate 0 is strictly below 50 and the
level at that point is 3 > 2, yet the truthiness guard skips the
heart-rate branch and the level stays 3 instead of the claimed 2. -/
theorem c4_counterexample :
    ((0 : Int) < 50) ∧
    (calculateFallbackTriage c4Cx).urgencyLevel = 3 ∧
    (calculateFallbackTriage c4Cx).urgencyLevel ≠ 2 := by
  decide

/-- C4 amended: for a present, nonzero heartRate above 120 or below 50,
whenever the urgency level at the heart-rate check exceeds 2 the level
is set directly to 2; a Medium base tier (level 3) and a Low base tier
(level 4) both end at exactly level 2. -/
theorem c4_abnormal_heart_rate_sets_two :
    (∀ (h : Int) (st : AdjState), h ≠ 0 → (h > 120 ∨ h < 50) → st.urgencyLevel > 2 →
      (heartRateAdjust (some h) st).urgencyLevel = 2) ∧
    (calculateFallbackTriage
      { patientName := "p", age := 30, symptoms := "infection",
        vitals := some { heartRate := some 130 } }).urgencyLevel = 2 ∧
    (calculateFallbackTriage
      { patientName := "p", age := 30, symptoms := "cold",
        vitals := some { heartRate := some 130 } }).urgencyLevel = 2 := by
  refine ⟨?_, by decide, by decide⟩
  intro h st h0 hrange hgt
  simp only [heartRateAdjust]
  rw [if_pos ⟨h0, hrange⟩]
  simp [hgt]

/-- C4 witness: heartRate 130 on a level-4 state is set directly to 2,
a two-step jump. -/
theorem c4_witness :
    (heartRateAdjust (some 130) ⟨4, Category.Low, ""⟩).urgencyLevel = 2 :=
  c4_abnormal_heart_rate_sets_two.1 130 ⟨4, Category.Low, ""⟩
    (by decide) (Or.inl (by decide)) (by decide)

/-- C5: a symptom text whose lower-casing contains an emergency-tier
keyword always yields urgency level 1 and category Emergency; no age or
vitals adjustment changes that. -/
theorem c5_emergency_keyword_forces_level_one (input : TriageInput)
    (h : ∃ kw ∈ emergencyKeywords, strIncludes (lowerStr input.symptoms) kw = true) :
    (calculateFallbackTriage input).urgencyLevel = 1 ∧
    (calculateFallbackTriage input).category = Category.Emergency := by
  have hany : emergencyKeywords.any (fun kw => strIncludes (lowerStr input.symptoms) kw) = true :=
    List.any_eq_true.mpr h
  have h1 : (tierState (lowerStr input.symptoms)).urgencyLevel = 1 := by
    simp [tierState, tierOf, hany]
  have h2 : (tierState (lowerStr input.symptoms)).category = Category.Emergency := by
    simp [tierState, tierOf, hany]
  rw [calculateFallbackTriage_urgencyLevel, calculateFallbackTriage_category]
  unfold triageAdjusted
  exact vitalsAdjust_lock input.vitals _
    (ageAdjust_level_one input.age _ h1)
    ((ageAdjust_category input.age _).trans h2)

/-- C5 witness input: an emergency keyword in mixed case, an escalating
age and adverse vitals. -/
def c5Wit : TriageInput :=
  { patientName := "p", age := 80, symptoms := "Severe Chest Pain",
    vitals := some { heartRate := some 130, temperature := some 40 } }

/-- C5 witness: the emergency keyword "chest pain" yields level 1 and
category Emergency despite age and vitals adjustments. -/
theorem c5_witness :
    (calculateFallbackTriage c5Wit).urgencyLevel = 1 ∧
    (calculateFallbackTriage c5Wit).category = Category.Emergency :=
  c5_emergency_keyword_forces_level_one c5Wit
    ⟨"chest pain", by decide, by decide⟩

/-- C6: the drug fallback classifier returns isAuthentic true exactly
when it returns verificationStatus authentic. -/
theorem c6_isAuthentic_iff_authentic (input : DrugVerificationInput) :
    (calculateFallbackVerification input).isAuthentic = true ↔
    (calculateFallbackVerification input).verificationStatus = VerificationStatus.authentic := by
  rcases hb : input.batchNumber with _ | s <;>
    simp only [calculateFallbackVerification, hb]
  · simp
  · split_ifs <;> simp

/-- C9: both fallback classifiers are deterministic pure functions —
identical inputs give identical results in every field. -/
theorem c9_deterministic (t1 t2 : TriageInput) (d1 d2 : DrugVerificationInput)
    (ht : t1 = t2) (hd : d1 = d2) :
    calculateFallbackTriage t1 = calculateFallbackTriage t2 ∧
    calculateFallbackVerification d1 = calculateFallbackVerification d2 := by
  subst ht
  subst hd
  exact ⟨rfl, rfl⟩

/-- C9 witness: determinism at a concrete triage input and a concrete
drug input. -/
theorem c9_witness :
    calculateFallbackTriage c1Input = calculateFallbackTriage c1Input ∧
    calculateFallbackVerification { batchNumber := some "AB123456" } =
      calculateFallbackVerification { batchNumber := some "AB123456" } :=
  c9_deterministic c1Input c1Input
    { batchNumber := some "AB123456" } { batchNumber := some "AB123456" } rfl rfl

/-- C3 counterexample input: the batch number is present but empty
(exactly what the verification form submits when the field is left
blank). -/
def c3Cx : DrugVerificationInput := { batchNumber := some "" }

/-- C3 counterexample theorem: a present empty batch number has length
0 < 6 — the claimed decision list demands suspicious / 0.50 — yet the
JavaScript falsiness test `!batchNumber` routes it to the absent branch
and the code returns unknown / 0.30. -/
theorem c3_counterexample :
    c3Cx.batchNumber = some "" ∧
    ("" : String).length < 6 ∧
    (calculateFallbackVerification c3Cx).verificationStatus = VerificationStatus.unknown ∧
    (calculateFallbackVerification c3Cx).verificationStatus ≠ VerificationStatus.suspicious ∧
    (calculateFallbackVerification c3Cx).confidence = (3 : ℚ) / 10 :=
  ⟨rfl, by decide, rfl, by decide, rfl⟩

/-- C3 amended: the drug fallback classifier is the strict decision
list on the batch number in which an absent OR EMPTY batch number
yields unknown / 0.30 / false; a present nonempty one with length < 6
yields suspicious / 0.50 / false; else a match of the anchored pattern
(two uppercase letters then six or more digits) yields authentic /
0.75 / true with no warning; otherwise suspicious / 0.40 / false. -/
theorem c3_decision_list (input : DrugVerificationInput) :
    ((input.batchNumber = none ∨ input.batchNumber = some "") →
      (calculateFallbackVerification input).verificationStatus = VerificationStatus.unknown ∧
      (calculateFallbackVerification input).confidence = (3 : ℚ) / 10 ∧
      (calculateFallbackVerification input).isAuthentic = false) ∧
    (∀ s, input.batchNumber = some s → s ≠ "" → s.length < 6 →
      (calculateFallbackVerification input).verificationStatus = VerificationStatus.suspicious ∧
      (calculateFallbackVerification input).confidence = (1 : ℚ) / 2 ∧
      (calculateFallbackVerification input).isAuthentic = false) ∧
    (∀ s, input.batchNumber = some s → ¬ s.length < 6 → batchPatternMatch s = true →
      (calculateFallbackVerification input).verificationStatus = VerificationStatus.authentic ∧
      (calculateFallbackVerification input).confidence = (3 : ℚ) / 4 ∧
      (calculateFallbackVerification input).isAuthentic = true ∧
      (calculateFallbackVerification input).warningMessage = none) ∧
    (∀ s, input.batchNumber = some s → ¬ s.length < 6 → batchPatternMatch s = false →
      (calculateFallbackVerification input).verificationStatus = VerificationStatus.suspicious ∧
      (calculateFallbackVerification input).confidence = (2 : ℚ) / 5 ∧
      (calculateFallbackVerification input).isAuthentic = false) := by
  refine ⟨?_, ?_, ?_, ?_⟩
  · intro hcase
    rcases hb : input.batchNumber with _ | s
    · simp [calculateFallbackVerification, hb]
    · rw [hb] at hcase
      rcases hcase with hc | hc
      · exact absurd hc (by simp)
      · have hs : s = "" := Option.some.inj hc
        subst hs
        simp [calculateFallbackVerification, hb]
  · intro s hb hne hlt
    simp only [calculateFallbackVerification, hb]
    rw [if_neg hne, if_pos hlt]
    exact ⟨rfl, rfl, rfl⟩
  · intro s hb hge hpat
    have hne : ¬ s = "" := by
      intro h
      subst h
      exact hge (by decide)
    simp only [calculateFallbackVerification, hb]
    rw [if_neg hne, if_neg hge, if_pos hpat]
    exact ⟨rfl, rfl, rfl, rfl⟩
  · intro s hb hge hpat
    have hne : ¬ s = "" := by
      intro h
      subst h
      exact hge (by decide)
    have hpat2 : ¬ batchPatternMatch s = true := by simp [hpat]
    simp only [calculateFallbackVerification, hb]
    rw [if_neg hne, if_neg hge, if_neg hpat2]
    exact ⟨rfl, rfl, rfl⟩

/-- C3 witness: one instantiation of each amended branch at the
specification's own examples. -/
theorem c3_witness :
    (calculateFallbackVerification { batchNumber := some "AB123456" }).verificationStatus =
      VerificationStatus.authentic ∧
    (calculateFallbackVerification { batchNumber := some "AB123456" }).confidence = (3 : ℚ) / 4 ∧
    (calculateFallbackVerification { batchNumber := some "XY12" }).verificationStatus =
      VerificationStatus.suspicious ∧
    (calculateFallbackVerification { batchNumber := some "XY12" }).confidence = (1 : ℚ) / 2 ∧
    (calculateFallbackVerification { batchNumber := some "ab123456" }).verificationStatus =
      VerificationStatus.suspicious ∧
    (calculateFallbackVerification ({} : DrugVerificationInput)).verificationStatus =
      VerificationStatus.unknown := by
  refine ⟨?_, ?_, ?_, ?_, ?_, ?_⟩
  · exact ((c3_decision_list _).2.2.1 "AB123456" rfl (by decide) (by decide)).1
  · exact ((c3_decision_list _).2.2.1 "AB123456" rfl (by decide) (by decide)).2.1
  · exact ((c3_decision_list _).2.1 "XY12" rfl (by decide) (by decide)).1
  · exact ((c3_decision_list _).2.1 "XY12" rfl (by decide) (by decide)).2.1
  · exact ((c3_decision_list _).2.2.2 "ab123456" rfl (by decide) (by decide)).1
  · exact ((c3_decision_list _).1 (Or.inl rfl)).1

/-- C7: the adjustment pipeline of the triage classifier applies the
age step between tier selection and the vitals steps; when age < 5 or
age > 70 and the tier-selected level exceeds 1 the age step decrements
the level by exactly one and appends the age fragment, and when
5 ≤ age ≤ 70 the age step is the identity; a Low base tier at age 4
ends at level 3, and at age 30 stays at level 4. -/
theorem c7_age_escalation :
    (∀ (input : TriageInput),
      (calculateFallbackTriage input).urgencyLevel = (triageAdjusted input).urgencyLevel ∧
      triageAdjusted input =
        vitalsAdjust input.vitals (ageAdjust input.age (tierState (lowerStr input.symptoms)))) ∧
    (∀ (age : Int) (st : AdjState), (age < 5 ∨ age > 70) → 1 < st.urgencyLevel →
      ageAdjust age st =
        { st with
          urgencyLevel := st.urgencyLevel - 1
          explanation := st.explanation ++ " Age factor increases priority." }) ∧
    (∀ (age : Int) (st : AdjState), 5 ≤ age → age ≤ 70 → ageAdjust age st = st) ∧
    (calculateFallbackTriage { patientName := "p", age := 4, symptoms := "cold" }).urgencyLevel = 3 ∧
    (calculateFallbackTriage { patientName := "p", age := 30, symptoms := "cold" }).urgencyLevel = 4 := by
  refine ⟨fun input => ⟨rfl, rfl⟩, ?_, ?_, by decide, by decide⟩
  · intro age st hage hgt
    unfold ageAdjust
    rw [if_pos hage, if_pos hgt]
  · intro age st h5 h70
    unfold ageAdjust
    rw [if_neg (by omega : ¬ (age < 5 ∨ age > 70))]

/-- C7 witness: the age step at age 4 on a Low level-4 state, and at
age 30 where it is the identity. -/
theorem c7_witness :
    ageAdjust 4 ⟨4, Category.Low, ""⟩ =
      ⟨3, Category.Low, " Age factor increases priority."⟩ ∧
    ageAdjust 30 ⟨4, Category.Low, ""⟩ = ⟨4, Category.Low, ""⟩ :=
  ⟨(c7_age_escalation.2.1 4 ⟨4, Category.Low, ""⟩ (Or.inl (by decide)) (by decide)).trans
      (by decide),
   c7_age_escalation.2.2.1 30 ⟨4, Category.Low, ""⟩ (by decide) (by decide)⟩

/-- C8: both classifiers are total functions — every input yields a
result — and a symptom text matching no tier keyword selects the
default Normal tier with level 5. -/
theorem c8_total_with_normal_default (ti : TriageInput) (di : DrugVerificationInput) :
    (∃ r, calculateFallbackTriage ti = r) ∧
    (∃ r, calculateFallbackVerification di = r) ∧
    ((∀ kw ∈ allTierKeywords, strIncludes (lowerStr ti.symptoms) kw = false) →
      tierOf (lowerStr ti.symptoms) =
        ⟨5, Category.Normal,
         "Standard evaluation recommended. No urgent symptoms detected.",
         "Schedule routine appointment."⟩) := by
  refine ⟨⟨_, rfl⟩, ⟨_, rfl⟩, ?_⟩
  intro h
  have hmem : ∀ kw ∈ allTierKeywords, strIncludes (lowerStr ti.symptoms) kw = false := h
  have he : emergencyKeywords.any (fun kw => strIncludes (lowerStr ti.symptoms) kw) = false := by
    rw [List.any_eq_false]
    intro kw hkw
    simp [hmem kw (by simp [allTierKeywords, hkw])]
  have hh : highKeywords.any (fun kw => strIncludes (lowerStr ti.symptoms) kw) = false := by
    rw [List.any_eq_false]
    intro kw hkw
    simp [hmem kw (by simp [allTierKeywords, hkw])]
  have hm : mediumKeywords.any (fun kw => strIncludes (lowerStr ti.symptoms) kw) = false := by
    rw [List.any_eq_false]
    intro kw hkw
    simp [hmem kw (by simp [allTierKeywords, hkw])]
  have hl : lowKeywords.any (fun kw => strIncludes (lowerStr ti.symptoms) kw) = false := by
    rw [List.any_eq_false]
    intro kw hkw
    simp [hmem kw (by simp [allTierKeywords, hkw])]
  simp [tierOf, he, hh, hm, hl]

/-- C8 witness: totality and the Normal default at an empty symptom
text, a negative age, absent vitals and an absent batch number. -/
theorem c8_witness :
    (∃ r, calculateFallbackTriage { patientName := "p", age := -1, symptoms := "" } = r) ∧
    (∃ r, calculateFallbackVerification ({} : DrugVerificationInput) = r) ∧
    tierOf (lowerStr "") =
      ⟨5, Category.Normal,
       "Standard evaluation recommended. No urgent symptoms detected.",
       "Schedule routine appointment."⟩ := by
  have h := c8_total_with_normal_default
    { patientName := "p", age := -1, symptoms := "" } ({} : DrugVerificationInput)
  exact ⟨h.1, h.2.1, h.2.2 (by decide)⟩

/-- Substring containment of a fragment in a string, as lists of
characters. -/
def strContains (s pat : String) : Prop :=
  ∃ pre post, s.data = pre ++ pat.data ++ post

lemma strContains_append_right (s e pat : String) (h : strContains s pat) :
    strContains (s ++ e) pat := by
  obtain ⟨a, b, hab⟩ := h
  exact ⟨a, b ++ e.data, by rw [String.data_append, hab]; simp⟩

lemma strContains_append_self (s pat : String) : strContains (s ++ pat) pat :=
  ⟨s.data, [], by rw [String.data_append]; simp⟩

/-! Monotonicity of the explanation text along the adjustment steps. -/

lemma ageAdjust_expl_mono (a : Int) (st : AdjState) (pat : String)
    (h : strContains st.explanation pat) : strContains (ageAdjust a st).explanation pat := by
  unfold ageAdjust
  split
  · exact strContains_append_right _ _ _ h
  · exact h

lemma tempAdjust_expl_mono (t : Option Int) (st : AdjState) (pat : String)
    (h : strContains st.explanation pat) : strContains (tempAdjust t st).explanation pat := by
  cases t with
  | none => exact h
  | some x =>
    simp only [tempAdjust]
    split
    · exact strContains_append_right _ _ _ h
    · exact h

lemma oxygenAdjust_expl_mono (o : Option Int) (st : AdjState) (pat : String)
    (h : strContains st.explanation pat) : strContains (oxygenAdjust o st).explanation pat := by
  cases o with
  | none => exact h
  | some x =>
    simp only [oxygenAdjust]
    split
    · exact strContains_append_right _ _ _ h
    · exact h

lemma heartRateAdjust_expl_mono (hr : Option Int) (st : AdjState) (pat : String)
    (h : strContains st.explanation pat) : strContains (heartRateAdjust hr st).explanation pat := by
  cases hr with
  | none => exact h
  | some x =>
    simp only [heartRateAdjust]
    split
    · exact strContains_append_right _ _ _ h
    · exact h

lemma vitalsAdjust_expl_mono (v : Option Vitals) (st : AdjState) (pat : String)
    (h : strContains st.explanation pat) : strContains (vitalsAdjust v st).explanation pat := by
  cases v with
  | none => exact h
  | some vv =>
    simp only [vitalsAdjust]
    exact heartRateAdjust_expl_mono _ _ _
      (oxygenAdjust_expl_mono _ _ _ (tempAdjust_expl_mono _ _ _ h))

lemma ageAdjust_expl_fires (a : Int) (st : AdjState) (ha : a < 5 ∨ a > 70) :
    strContains (ageAdjust a st).explanation " Age factor increases priority." := by
  unfold ageAdjust
  rw [if_pos ha]
  exact strContains_append_self _ _

lemma tempAdjust_expl_fires (t : Int) (st : AdjState) (ht : 39 < t) :
    strContains (tempAdjust (some t) st).explanation " High temperature noted." := by
  simp only [tempAdjust]
  rw [if_pos ⟨by omega, ht⟩]
  exact strContains_append_self _ _

/-- C10: the age fragment is appended whenever age < 5 or age > 70, and
the temperature fragment whenever a temperature above 39 is present,
independently of whether the urgency level changed. -/
theorem c10_fragments_always_appended (input : TriageInput) :
    ((input.age < 5 ∨ input.age > 70) →
      strContains (calculateFallbackTriage input).explanation
        " Age factor increases priority.") ∧
    (∀ (v : Vitals) (t : Int), input.vitals = some v → v.temperature = some t → 39 < t →
      strContains (calculateFallbackTriage input).explanation
        " High temperature noted.") := by
  constructor
  · intro ha
    rw [calculateFallbackTriage_explanation]
    unfold triageAdjusted
    exact vitalsAdjust_expl_mono _ _ _ (ageAdjust_expl_fires input.age _ ha)
  · intro v t hv ht h39
    rw [calculateFallbackTriage_explanation]
    unfold triageAdjusted
    rw [hv]
    simp only [vitalsAdjust]
    rw [ht]
    exact heartRateAdjust_expl_mono _ _ _
      (oxygenAdjust_expl_mono _ _ _ (tempAdjust_expl_fires t _ h39))

/-- C10 witness input: emergency tier (level already 1), age 2 and
temperature 40. -/
def c10Wit : TriageInput :=
  { patientName := "p", age := 2, symptoms := "chest pain",
    vitals := some { temperature := some 40 } }

/-- C10 witness: both fragments appear although the level, already 1,
is not changed by either adjustment. -/
theorem c10_witness :
    strContains (calculateFallbackTriage c10Wit).explanation
      " Age factor increases priority." ∧
    strContains (calculateFallbackTriage c10Wit).explanation
      " High temperature noted." :=
  ⟨(c10_fragments_always_appended c10Wit).1 (Or.inl (by decide)),
   (c10_fragments_always_appended c10Wit).2 { temperature := some 40 } 40 rfl rfl (by decide)⟩

end Medtech
